import Mathlib

/-!
Verification of the aio3d-game repository against its natural-language
specification.  The repository is TypeScript glue code over an external
ECS engine; the definitions below are a shallow embedding of the
in-repo systems, levels, components and prefab construction functions.
Machine reals (JS numbers) are modelled exactly by rationals, entity
component tables by structures with `Option` fields, and the effectful
operations (scene-graph adds, logger warnings, timer cancellation) by
explicit result records or state-passing functions.
-/

/-! ## Shared geometry: a three-component vector (THREE.Vector3 / THREE.Euler) -/

/-- A three component vector of exact rationals, standing in for the
renderer library vector and Euler-angle objects. -/
structure Vec3 where
  x : ℚ
  y : ℚ
  z : ℚ
deriving DecidableEq, Repr

/-! ## SpinningSystem (src/src/systems/simple/SpinningSystem.ts)

The system queries entities having both the game SPINNING_CUBE component
and the core TRANSFORM component and advances the transform rotation by
rotationSpeed * deltaTime on each axis.  Entities lacking either
component are left untouched. -/

/-- SpinningCubeComponent: pure data, the per-axis rotation speed. -/
structure SpinningCubeComponent where
  rotationSpeed : Vec3
deriving DecidableEq, Repr

/-- TransformComponent: only the Euler rotation state is relevant here. -/
structure TransformComponent where
  rotation : Vec3
deriving DecidableEq, Repr

/-- An entity as seen by the spinning system: it may or may not carry
each of the two components. -/
structure SpinEntity where
  spinning : Option SpinningCubeComponent
  transform : Option TransformComponent
deriving DecidableEq, Repr

/-- One step of SpinningSystem.update on a single entity: when both
components are present the three rotation angles are incremented by
speed * deltaTime; no wraparound normalization is applied (the source
keeps the modulo code commented out). -/
def SpinningSystem.updateEntity (deltaTime : ℚ) (e : SpinEntity) : SpinEntity :=
  match e.spinning, e.transform with
  | some sc, some tr =>
      ⟨some sc, some ⟨⟨tr.rotation.x + sc.rotationSpeed.x * deltaTime,
                       tr.rotation.y + sc.rotationSpeed.y * deltaTime,
                       tr.rotation.z + sc.rotationSpeed.z * deltaTime⟩⟩⟩
  | _, _ => e

/-- SpinningSystem.update: the world query selects the entities carrying
both components and updates each of them; the rest of the world is
unchanged. -/
def SpinningSystem.update (deltaTime : ℚ) (world : List SpinEntity) : List SpinEntity :=
  world.map (SpinningSystem.updateEntity deltaTime)

lemma SpinningSystem.updateEntity_both (deltaTime : ℚ) (sc : SpinningCubeComponent)
    (tr : TransformComponent) :
    SpinningSystem.updateEntity deltaTime ⟨some sc, some tr⟩ =
      ⟨some sc, some
        { rotation :=
            { x := tr.rotation.x + sc.rotationSpeed.x * deltaTime
              y := tr.rotation.y + sc.rotationSpeed.y * deltaTime
              z := tr.rotation.z + sc.rotationSpeed.z * deltaTime } }⟩ := rfl

lemma SpinningSystem.updateEntity_iterate (deltaTime : ℚ) (sc : SpinningCubeComponent)
    (tr : TransformComponent) (N : ℕ) :
    (SpinningSystem.updateEntity deltaTime)^[N] ⟨some sc, some tr⟩ =
      ⟨some sc, some
        { rotation :=
            { x := tr.rotation.x + sc.rotationSpeed.x * deltaTime * N
              y := tr.rotation.y + sc.rotationSpeed.y * deltaTime * N
              z := tr.rotation.z + sc.rotationSpeed.z * deltaTime * N } }⟩ := by
  induction N generalizing tr with
  | zero => simp [Function.iterate_zero]
  | succ n ih =>
      rw [Function.iterate_succ_apply, SpinningSystem.updateEntity_both, ih]
      have h : ∀ a b : ℚ, a + b * deltaTime + b * deltaTime * n
          = a + b * deltaTime * (n + 1 : ℕ) := by
        intro a b
        push_cast
        ring
      simp only [h]

lemma SpinningSystem.update_iterate (deltaTime : ℚ) (world : List SpinEntity) (N : ℕ) :
    (SpinningSystem.update deltaTime)^[N] world
      = world.map ((SpinningSystem.updateEntity deltaTime)^[N]) := by
  induction N generalizing world with
  | zero => simp
  | succ n ih =>
      rw [Function.iterate_succ_apply, ih, SpinningSystem.update, List.map_map]
      rfl

/-- C1: for every entity carrying both the spinning-cube component and
the transform component, one call of SpinningSystem.update with elapsed
time dt (dt at least 0) adds rotationSpeed * dt to the rotation on each
axis with no wraparound normalization, and after N such calls with the
same dt each axis angle equals its initial value plus speed * dt * N. -/
theorem spinningSystem_rotation_accumulates (dt : ℚ) (hdt : 0 ≤ dt)
    (world : List SpinEntity) (i : ℕ) (e : SpinEntity)
    (sc : SpinningCubeComponent) (tr : TransformComponent)
    (he : world[i]? = some e) (hs : e.spinning = some sc)
    (ht : e.transform = some tr) (N : ℕ) :
    ((SpinningSystem.update dt)^[N] world)[i]? = some
      ⟨some sc, some
        { rotation :=
            { x := tr.rotation.x + sc.rotationSpeed.x * dt * N
              y := tr.rotation.y + sc.rotationSpeed.y * dt * N
              z := tr.rotation.z + sc.rotationSpeed.z * dt * N } }⟩ := by
  have hE : e = ⟨some sc, some tr⟩ := by
    cases e
    simp_all
  rw [SpinningSystem.update_iterate, List.getElem?_map, he, hE]
  simp only [Option.map_some']
  rw [SpinningSystem.updateEntity_iterate]

/-- Witness for C1, matching the spec test: dt = 1/10, N = 10,
speed = (1,0,0), initial angle 0, expected x-angle exactly 1. -/
theorem spinningSystem_rotation_accumulates_witness :
    ((SpinningSystem.update (1/10))^[10]
        [⟨some ⟨⟨1, 0, 0⟩⟩, some ⟨⟨0, 0, 0⟩⟩⟩])[0]? = some
      ⟨some ⟨⟨1, 0, 0⟩⟩, some
        { rotation :=
            { x := 0 + 1 * (1/10) * (10 : ℕ)
              y := 0 + 0 * (1/10) * (10 : ℕ)
              z := 0 + 0 * (1/10) * (10 : ℕ) } }⟩ :=
  spinningSystem_rotation_accumulates (1/10) (by norm_num)
    [⟨some ⟨⟨1, 0, 0⟩⟩, some ⟨⟨0, 0, 0⟩⟩⟩] 0 ⟨some ⟨⟨1, 0, 0⟩⟩, some ⟨⟨0, 0, 0⟩⟩⟩
    ⟨⟨1, 0, 0⟩⟩ ⟨⟨0, 0, 0⟩⟩ rfl rfl rfl 10

/-! ## Mesh registration (src/src/systems/MeshRegistrationSystem.ts and
src/unnamed GameMeshRegistrationSystem)

Both handlers react to the entityCreatedFromPrefab event.  Meshes are
identified by a numeric id; the observable effects of a handler are the
ordered list of addToScene calls and the number of warnings logged. -/

/-- A renderer mesh object, identified by id. -/
abbrev Mesh := ℕ

/-- The spinning-cube component as seen by the registration handler:
its nested mesh property may be missing. -/
structure SpinningCubeVisual where
  mesh : Option Mesh
deriving DecidableEq, Repr

/-- The core MeshComponent: its nested mesh property may be missing. -/
structure MeshComponent where
  mesh : Option Mesh
deriving DecidableEq, Repr

/-- An entity as seen by the registration handlers: it may carry the
game SPINNING_CUBE component and/or the core MESH component. -/
structure REntity where
  id : ℕ
  spinningCube : Option SpinningCubeVisual
  meshC : Option MeshComponent
deriving DecidableEq, Repr

/-- Observable outcome of one handler invocation: the meshes passed to
SceneSystem.addToScene, in order, and the number of warnings logged. -/
structure RegResult where
  adds : List Mesh
  warnings : ℕ
deriving DecidableEq, Repr

/-- MeshRegistrationSystem.handleEntityCreated: checks the game
spinning-cube component and the core mesh component with two
independent conditionals; each check adds the nested mesh when present
and logs a warning when the component is present without a mesh. -/
def MeshRegistrationSystem.handleEntityCreated (e : REntity) : RegResult :=
  let r1 : RegResult :=
    match e.spinningCube with
    | some sc =>
        match sc.mesh with
        | some m => ⟨[m], 0⟩
        | none => ⟨[], 1⟩
    | none => ⟨[], 0⟩
  let r2 : RegResult :=
    match e.meshC with
    | some mc =>
        match mc.mesh with
        | some m => ⟨[m], 0⟩
        | none => ⟨[], 1⟩
    | none => ⟨[], 0⟩
  ⟨r1.adds ++ r2.adds, r1.warnings + r2.warnings⟩

/-- Modelled from the spec: the handleEntityCreated of the external
engine core MeshRegistrationSystem (package aio3d-core, whose source is
not part of this repository) is the generic/default handler for the
plain core mesh tag: it adds the mesh component nested mesh when
present and logs a warning when it is missing. -/
def CoreMeshRegistrationSystem.handleEntityCreated (e : REntity) : RegResult :=
  match e.meshC with
  | some mc =>
      match mc.mesh with
      | some m => ⟨[m], 0⟩
      | none => ⟨[], 1⟩
  | none => ⟨[], 0⟩

/-- GameMeshRegistrationSystem.handleGameSpecificMesh: reads the core
mesh component of the entity; warns and returns when the component or
its nested mesh is missing, otherwise adds the mesh to the scene. -/
def GameMeshRegistrationSystem.handleGameSpecificMesh (e : REntity) : RegResult :=
  match e.meshC with
  | some mc =>
      match mc.mesh with
      | some m => ⟨[m], 0⟩
      | none => ⟨[], 1⟩
  | none => ⟨[], 1⟩

/-- GameMeshRegistrationSystem.handleEntityCreated: game-specific
components are handled first with an early return; otherwise it falls
back to the core handler. -/
def GameMeshRegistrationSystem.handleEntityCreated (e : REntity) : RegResult :=
  if e.spinningCube.isSome then GameMeshRegistrationSystem.handleGameSpecificMesh e
  else CoreMeshRegistrationSystem.handleEntityCreated e

/-- C2 counterexample: in the standalone
MeshRegistrationSystem.handleEntityCreated the two checks are
independent conditionals, so an entity carrying both the spinning-cube
component (mesh 5) and the core mesh component (mesh 7) has two meshes
added to the scene graph, not at most one. -/
theorem meshRegistration_double_add_counterexample :
    ¬ ((MeshRegistrationSystem.handleEntityCreated
        ⟨1, some ⟨some 5⟩, some ⟨some 7⟩⟩).adds.length ≤ 1) := by
  decide

/-- C2 (amended): in GameMeshRegistrationSystem.handleEntityCreated the
spinning-cube tag is attempted first and the handler returns early, so
the generic core handler runs only when no spinning-cube component is
present and at most one mesh is ever added per invocation; the
standalone MeshRegistrationSystem, by contrast, runs both checks. -/
theorem gameMeshRegistration_first_match_wins :
    (∀ e : REntity, (GameMeshRegistrationSystem.handleEntityCreated e).adds.length ≤ 1) ∧
    (∀ e : REntity, e.spinningCube.isSome = true →
      GameMeshRegistrationSystem.handleEntityCreated e
        = GameMeshRegistrationSystem.handleGameSpecificMesh e) ∧
    (∀ e : REntity, e.spinningCube = none →
      GameMeshRegistrationSystem.handleEntityCreated e
        = CoreMeshRegistrationSystem.handleEntityCreated e) := by
  refine ⟨?_, ?_, ?_⟩
  · intro e
    rcases e with ⟨i, sc, mc⟩
    rcases sc with _ | ⟨⟨_ | m⟩⟩ <;> rcases mc with _ | ⟨⟨_ | m2⟩⟩ <;>
      simp [GameMeshRegistrationSystem.handleEntityCreated,
        GameMeshRegistrationSystem.handleGameSpecificMesh,
        CoreMeshRegistrationSystem.handleEntityCreated]
  · intro e h
    simp [GameMeshRegistrationSystem.handleEntityCreated, h]
  · intro e h
    simp [GameMeshRegistrationSystem.handleEntityCreated, h]

/-- Witness for C2: an entity carrying both components is handled by
the game-specific branch alone, and only one mesh is added. -/
theorem gameMeshRegistration_first_match_wins_witness :
    GameMeshRegistrationSystem.handleEntityCreated ⟨1, some ⟨some 5⟩, some ⟨some 7⟩⟩
      = GameMeshRegistrationSystem.handleGameSpecificMesh ⟨1, some ⟨some 5⟩, some ⟨some 7⟩⟩ ∧
    (GameMeshRegistrationSystem.handleEntityCreated
        ⟨1, some ⟨some 5⟩, some ⟨some 7⟩⟩).adds.length ≤ 1 :=
  ⟨gameMeshRegistration_first_match_wins.2.1 ⟨1, some ⟨some 5⟩, some ⟨some 7⟩⟩ rfl,
   gameMeshRegistration_first_match_wins.1 ⟨1, some ⟨some 5⟩, some ⟨some 7⟩⟩⟩

/-- C3: an entity that carries a recognized visual component whose
nested mesh is missing gets a warning logged and nothing added to the
scene graph for that component (the handler is a total function, hence
never throws): removing the mesh-less component removes exactly one
warning and changes no scene-graph add. -/
theorem meshRegistration_missing_renderable_warns :
    (∀ (e : REntity) (sc : SpinningCubeVisual), e.spinningCube = some sc → sc.mesh = none →
      (MeshRegistrationSystem.handleEntityCreated e).adds
          = (MeshRegistrationSystem.handleEntityCreated { e with spinningCube := none }).adds ∧
        (MeshRegistrationSystem.handleEntityCreated e).warnings
          = (MeshRegistrationSystem.handleEntityCreated { e with spinningCube := none }).warnings
              + 1) ∧
    (∀ (e : REntity) (mc : MeshComponent), e.meshC = some mc → mc.mesh = none →
      (MeshRegistrationSystem.handleEntityCreated e).adds
          = (MeshRegistrationSystem.handleEntityCreated { e with meshC := none }).adds ∧
        (MeshRegistrationSystem.handleEntityCreated e).warnings
          = (MeshRegistrationSystem.handleEntityCreated { e with meshC := none }).warnings + 1) := by
  constructor
  · intro e sc hsc hmesh
    rcases e with ⟨i, s, mc⟩
    cases hsc
    rcases mc with _ | ⟨⟨_ | m2⟩⟩ <;>
      simp [MeshRegistrationSystem.handleEntityCreated, hmesh]
  · intro e mc hmc hmesh
    rcases e with ⟨i, s, m⟩
    cases hmc
    rcases s with _ | ⟨⟨_ | m2⟩⟩ <;>
      simp [MeshRegistrationSystem.handleEntityCreated, hmesh]

/-- Witness for C3: an entity with a mesh-less spinning-cube component
and a mesh-less core mesh component produces no adds and one warning
per component. -/
theorem meshRegistration_missing_renderable_warns_witness :
    ((MeshRegistrationSystem.handleEntityCreated ⟨2, some ⟨none⟩, some ⟨none⟩⟩).adds
        = (MeshRegistrationSystem.handleEntityCreated ⟨2, none, some ⟨none⟩⟩).adds ∧
      (MeshRegistrationSystem.handleEntityCreated ⟨2, some ⟨none⟩, some ⟨none⟩⟩).warnings
        = (MeshRegistrationSystem.handleEntityCreated ⟨2, none, some ⟨none⟩⟩).warnings + 1) ∧
    ((MeshRegistrationSystem.handleEntityCreated ⟨2, some ⟨none⟩, some ⟨none⟩⟩).adds
        = (MeshRegistrationSystem.handleEntityCreated ⟨2, some ⟨none⟩, none⟩).adds ∧
      (MeshRegistrationSystem.handleEntityCreated ⟨2, some ⟨none⟩, some ⟨none⟩⟩).warnings
        = (MeshRegistrationSystem.handleEntityCreated ⟨2, some ⟨none⟩, none⟩).warnings + 1) :=
  ⟨meshRegistration_missing_renderable_warns.1 ⟨2, some ⟨none⟩, some ⟨none⟩⟩ ⟨none⟩ rfl rfl,
   meshRegistration_missing_renderable_warns.2 ⟨2, some ⟨none⟩, some ⟨none⟩⟩ ⟨none⟩ rfl rfl⟩

/-! ## BaseLevel lifecycle (src/unnamed BaseLevel) and
PhysicsCollisionLevel.cleanupLevelSpecifics

The resource state of a level: the pending animation-frame handle, the
stored cleanup callbacks (timer cancellers, identified by id), plus an
effect log (cancelled handles, callbacks run, errors logged) so that
the handlers can be compared as pure state transformers. -/

/-- Resource state of a running level. -/
structure LevelState where
  animationFrameId : Option ℕ
  lastTime : ℚ
  cleanupCallbacks : List ℕ
  ranCallbacks : List ℕ
  cancelledHandles : List ℕ
  contextListenersAttached : Bool
  errorsLogged : ℕ
deriving DecidableEq, Repr

/-- BaseLevel.stop: cancels the pending animation-frame handle when one
exists and nulls the field, then removes the context event listeners. -/
def BaseLevel.stop (s : LevelState) : LevelState :=
  let s1 :=
    match s.animationFrameId with
    | some h =>
        { s with animationFrameId := none, cancelledHandles := s.cancelledHandles ++ [h] }
    | none => s
  { s1 with contextListenersAttached := false }

/-- PhysicsCollisionLevel.cleanupLevelSpecifics: runs every stored
cleanup callback and empties the list. -/
def PhysicsCollisionLevel.cleanupLevelSpecifics (s : LevelState) : LevelState :=
  { s with ranCallbacks := s.ranCallbacks ++ s.cleanupCallbacks, cleanupCallbacks := [] }

/-- BaseLevel.cleanup: stop the loop, then run the level-specific
teardown. -/
def BaseLevel.cleanup (s : LevelState) : LevelState :=
  PhysicsCollisionLevel.cleanupLevelSpecifics (BaseLevel.stop s)

/-- BaseLevel.animate: requests the next frame (storing the new handle)
and updates the clock, then runs the world update and render inside a
try/catch; a thrown error is logged once and the loop is stopped. -/
def BaseLevel.animate (s : LevelState) (newHandle : ℕ) (currentTime : ℚ)
    (frameResult : Except String Unit) : LevelState :=
  let s1 := { s with animationFrameId := some newHandle, lastTime := currentTime }
  match frameResult with
  | Except.ok _ => s1
  | Except.error _ => BaseLevel.stop { s1 with errorsLogged := s1.errorsLogged + 1 }

/-- C4: calling a level cleanup twice in succession does not throw (it
is a total state transformer) and the resource state after the second
call equals the state after the first; moreover after any cleanup the
animation-frame handle is null and the stored cleanup-callback list is
empty. -/
theorem baseLevel_cleanup_idempotent (s : LevelState) :
    BaseLevel.cleanup (BaseLevel.cleanup s) = BaseLevel.cleanup s ∧
    (BaseLevel.cleanup s).animationFrameId = none ∧
    (BaseLevel.cleanup s).cleanupCallbacks = [] := by
  rcases s with ⟨af, lt, cc, rc, ch, cl, el⟩
  cases af <;>
    simp [BaseLevel.cleanup, BaseLevel.stop, PhysicsCollisionLevel.cleanupLevelSpecifics]

/-- C6: an error thrown inside the per-frame animation loop halts the
loop immediately: the freshly requested animation-frame handle is
cancelled and the field set to null via stop, the error is logged
exactly once, and no further frame remains scheduled (no automatic
retry). -/
theorem baseLevel_animate_error_stops (s : LevelState) (newHandle : ℕ)
    (currentTime : ℚ) (msg : String) :
    (BaseLevel.animate s newHandle currentTime (Except.error msg)).animationFrameId = none ∧
    (BaseLevel.animate s newHandle currentTime (Except.error msg)).cancelledHandles
      = s.cancelledHandles ++ [newHandle] ∧
    (BaseLevel.animate s newHandle currentTime (Except.error msg)).errorsLogged
      = s.errorsLogged + 1 := by
  simp [BaseLevel.animate, BaseLevel.stop]

/-! ## PhysicsOverlapLevel collision color toggle (src/unnamed part of
PhysicsOverlapLevel: setupOverlapHandlers, handleCollisionStart,
handleCollisionEnd)

A material carries its current color (hex value), the ad hoc
originalColor cache field stashed on the material object, and the
needsUpdate flag.  Entities expose the material of their mesh component
when the chain meshComp?.mesh / material instanceof THREE.Material
succeeds.  Only the collision-end log line for a missing cached color
is modelled, as the relevant observable. -/

/-- A renderer material with the ad hoc originalColor cache field. -/
structure Material where
  color : ℕ
  originalColor : Option ℕ
  needsUpdate : Bool
deriving DecidableEq, Repr

/-- An entity as seen by the overlap handlers: its id and, when the
mesh component holds a valid material, that material. -/
structure OEntity where
  id : ℕ
  material : Option Material
deriving DecidableEq, Repr

/-- A physics collision event payload with the two body ids. -/
structure CollisionEvt where
  bodyA : ℕ
  bodyB : ℕ
deriving DecidableEq, Repr

/-- The id of the non-sensor body of the event, as computed by both
handlers: bodyB when bodyA is the sensor, otherwise bodyA. -/
def CollisionEvt.otherBody (sensorId : ℕ) (evt : CollisionEvt) : ℕ :=
  if evt.bodyA = sensorId then evt.bodyB else evt.bodyA

/-- World.getEntity: first entity with the given id. -/
def World.getEntity (w : List OEntity) (targetId : ℕ) : Option OEntity :=
  w.find? (fun e => e.id = targetId)

/-- Overwriting the material of every entity with the given id (the
handlers mutate the found entity's material in place; ids are the
lookup key). -/
def World.setMaterial (w : List OEntity) (targetId : ℕ) (m : Material) : List OEntity :=
  w.map (fun e => if e.id = targetId then { e with material := some m } else e)

/-- handleCollisionStart: when the sensor is one of the two bodies, the
other body is the target; if the target entity exists and has a valid
mesh material, the original color is cached on the material (only if no
cache is present yet) and the color is then overwritten with red
(0xff0000) with needsUpdate set. -/
def PhysicsOverlapLevel.handleCollisionStart (sensorId : ℕ) (evt : CollisionEvt)
    (w : List OEntity) : List OEntity :=
  if evt.bodyA = sensorId ∨ evt.bodyB = sensorId then
    match World.getEntity w (evt.otherBody sensorId) with
    | some te =>
        match te.material with
        | some m =>
            match m.originalColor with
            | none =>
                World.setMaterial w (evt.otherBody sensorId)
                  { m with originalColor := some m.color, color := 0xff0000, needsUpdate := true }
            | some _ =>
                World.setMaterial w (evt.otherBody sensorId)
                  { m with color := 0xff0000, needsUpdate := true }
        | none => w
    | none => w
  else w

/-- handleCollisionEnd: when the sensor is one of the two bodies and
the target entity has a valid mesh material, the color is restored by
copying the cached originalColor when present (with needsUpdate set);
when no cached color is present the handler logs (the returned flag)
and leaves the world unchanged. -/
def PhysicsOverlapLevel.handleCollisionEnd (sensorId : ℕ) (evt : CollisionEvt)
    (w : List OEntity) : List OEntity × Bool :=
  if evt.bodyA = sensorId ∨ evt.bodyB = sensorId then
    match World.getEntity w (evt.otherBody sensorId) with
    | some te =>
        match te.material with
        | some m =>
            match m.originalColor with
            | some oc =>
                (World.setMaterial w (evt.otherBody sensorId)
                  { m with color := oc, needsUpdate := true }, false)
            | none => (w, true)
        | none => (w, false)
    | none => (w, false)
  else (w, false)

lemma World.setMaterial_setMaterial (w : List OEntity) (targetId : ℕ) (m m2 : Material) :
    World.setMaterial (World.setMaterial w targetId m) targetId m2
      = World.setMaterial w targetId m2 := by
  unfold World.setMaterial
  rw [List.map_map]
  apply List.map_congr_left
  intro e _
  by_cases h : e.id = targetId <;> simp [h]

lemma World.getEntity_setMaterial (w : List OEntity) (targetId : ℕ) (m : Material) :
    World.getEntity (World.setMaterial w targetId m) targetId
      = (World.getEntity w targetId).map (fun e => { e with material := some m }) := by
  unfold World.getEntity World.setMaterial
  induction w with
  | nil => simp
  | cons e rest ih =>
      by_cases h : e.id = targetId
      · simp [List.find?, h]
      · simp only [List.map_cons, if_neg h]
        rw [List.find?_cons_of_neg, List.find?_cons_of_neg]
        · exact ih
        · simp [h]
        · simp [h]

/-- C5: when a collision-start for a (sensorId, targetId) pair finds a
target material with no cached original color, a later matching
collision-end restores the color bit-for-bit to the value captured at
collision-start (the pre-collision color); and whenever the material
seen at collision-end has no cached original color, the handler logs
and leaves the world unchanged. -/
theorem collision_start_end_restores_color :
    (∀ (sensorId : ℕ) (evt : CollisionEvt) (w : List OEntity) (e : OEntity) (m : Material),
      (evt.bodyA = sensorId ∨ evt.bodyB = sensorId) →
      World.getEntity w (evt.otherBody sensorId) = some e →
      e.material = some m →
      m.originalColor = none →
      PhysicsOverlapLevel.handleCollisionEnd sensorId evt
          (PhysicsOverlapLevel.handleCollisionStart sensorId evt w)
        = (World.setMaterial w (evt.otherBody sensorId)
            { color := m.color, originalColor := some m.color, needsUpdate := true }, false)) ∧
    (∀ (sensorId : ℕ) (evt : CollisionEvt) (w : List OEntity) (e : OEntity) (m : Material),
      (evt.bodyA = sensorId ∨ evt.bodyB = sensorId) →
      World.getEntity w (evt.otherBody sensorId) = some e →
      e.material = some m →
      m.originalColor = none →
      PhysicsOverlapLevel.handleCollisionEnd sensorId evt w = (w, true)) := by
  constructor
  · intro sensorId evt w e m hsensor hfind hmat horig
    unfold PhysicsOverlapLevel.handleCollisionStart
    rw [if_pos hsensor, hfind]
    simp only [hmat, horig]
    unfold PhysicsOverlapLevel.handleCollisionEnd
    rw [if_pos hsensor, World.getEntity_setMaterial, hfind]
    simp only [Option.map_some']
    rw [World.setMaterial_setMaterial]
  · intro sensorId evt w e m hsensor hfind hmat horig
    unfold PhysicsOverlapLevel.handleCollisionEnd
    rw [if_pos hsensor, hfind]
    simp [hmat, horig]

/-- Witness for C5: sensor 1 collides with body 2 whose material is
color 10 with an empty cache; after start plus end the color is 10
again with the cache stashed, and an end seen with an empty cache logs
and leaves the world unchanged. -/
theorem collision_start_end_restores_color_witness :
    (PhysicsOverlapLevel.handleCollisionEnd 1 ⟨1, 2⟩
        (PhysicsOverlapLevel.handleCollisionStart 1 ⟨1, 2⟩ [⟨2, some ⟨10, none, false⟩⟩])
      = (World.setMaterial [⟨2, some ⟨10, none, false⟩⟩] (CollisionEvt.otherBody 1 ⟨1, 2⟩)
          { color := 10, originalColor := some 10, needsUpdate := true }, false)) ∧
    (PhysicsOverlapLevel.handleCollisionEnd 1 ⟨1, 2⟩ [⟨2, some ⟨10, none, false⟩⟩]
      = ([⟨2, some ⟨10, none, false⟩⟩], true)) :=
  ⟨collision_start_end_restores_color.1 1 ⟨1, 2⟩ [⟨2, some ⟨10, none, false⟩⟩]
      ⟨2, some ⟨10, none, false⟩⟩ ⟨10, none, false⟩ (Or.inl rfl) rfl rfl rfl,
   collision_start_end_restores_color.2 1 ⟨1, 2⟩ [⟨2, some ⟨10, none, false⟩⟩]
      ⟨2, some ⟨10, none, false⟩⟩ ⟨10, none, false⟩ (Or.inl rfl) rfl rfl rfl⟩

/-! ## Periodic impulses (PhysicsCollisionLevel.applyPeriodicImpulse and
PhysicsOverlapLevel.applyPeriodicImpulse, src/unnamed part of the
physics levels)

Both routines query candidate entities, filter them by a dynamic-body
predicate and, inside the same invocation, emit a synchronous
physics check-entity event whose embedded callback records whether the
physics engine has the body registered; an apply-impulse event is then
emitted for exactly the entities that passed both.  The physics engine
response is a function from entity id to Option Bool: some b when the
listener invokes the callback with b, none when the callback is never
invoked (so that the recording variable keeps its initial false). -/

/-- A rigid-body component: only the body type string matters here. -/
structure PRigidBody where
  bodyType : String
deriving DecidableEq, Repr

/-- An entity as seen by the periodic-impulse routines. -/
structure PEntity where
  id : ℕ
  transform : Option Vec3
  rigidBody : Option PRigidBody
  mesh : Bool
deriving DecidableEq, Repr

/-- The dynamic-and-above-ground test both routines apply: a transform
with position.y above 0.5 and a rigid body of dynamic type. -/
def PEntity.isDynamicAndAboveGround (e : PEntity) : Bool :=
  match e.transform, e.rigidBody with
  | some p, some rb => decide ((1 : ℚ)/2 < p.y) && decide (rb.bodyType = "dynamic")
  | _, _ => false

/-- The value of the hasRegisteredBody variable after the synchronous
check-entity emit: it starts false and is overwritten only when the
listener invokes the embedded callback. -/
def hasRegisteredBodyAfterCheck (reg : ℕ → Option Bool) (entityId : ℕ) : Bool :=
  (reg entityId).getD false

/-- PhysicsCollisionLevel.applyPeriodicImpulse: bails out when no
PhysicsSystem is present; otherwise filters the transform+rigid-body
query by the dynamic test and, for candidates, by the check-entity
confirmation, then emits one apply-impulse event per surviving entity.
The returned list holds the entity ids of the emitted impulse events. -/
def PhysicsCollisionLevel.applyPeriodicImpulse (physicsSystemPresent : Bool)
    (reg : ℕ → Option Bool) (w : List PEntity) : List ℕ :=
  if physicsSystemPresent = false then [] else
    (((w.filter (fun e => e.transform.isSome && e.rigidBody.isSome)).filter
        (fun e =>
          if e.isDynamicAndAboveGround then
            e.isDynamicAndAboveGround && hasRegisteredBodyAfterCheck reg e.id
          else false)).map (fun e => e.id))

/-- PhysicsOverlapLevel.applyPeriodicImpulse: same shape, with the mesh
component added to the query and an early false return from the filter
when the dynamic test fails. -/
def PhysicsOverlapLevel.applyPeriodicImpulse (physicsSystemPresent : Bool)
    (reg : ℕ → Option Bool) (w : List PEntity) : List ℕ :=
  if physicsSystemPresent = false then [] else
    (((w.filter (fun e => e.transform.isSome && e.rigidBody.isSome && e.mesh)).filter
        (fun e =>
          if e.isDynamicAndAboveGround = false then false
          else hasRegisteredBodyAfterCheck reg e.id)).map (fun e => e.id))

lemma PEntity.isDynamicAndAboveGround_components (e : PEntity)
    (h : e.isDynamicAndAboveGround = true) :
    e.transform.isSome = true ∧ e.rigidBody.isSome = true := by
  rcases e with ⟨i, t, rb, ms⟩
  cases t <;> cases rb <;> simp_all [PEntity.isDynamicAndAboveGround]

lemma mem_doubleFilter_map (p q : PEntity → Bool) (w : List PEntity) (i : ℕ) :
    (i ∈ ((w.filter p).filter q).map (fun e => e.id)) ↔
      ∃ e, e ∈ w ∧ e.id = i ∧ p e = true ∧ q e = true := by
  simp only [List.mem_map, List.mem_filter]
  constructor
  · rintro ⟨e, ⟨⟨hw, hp⟩, hq⟩, hid⟩
    exact ⟨e, hw, hid, hp, hq⟩
  · rintro ⟨e, hw, hid, hp, hq⟩
    exact ⟨e, ⟨⟨hw, hp⟩, hq⟩, hid⟩

lemma collisionImpulseFilter_iff (reg : ℕ → Option Bool) (e : PEntity) :
    ((if e.isDynamicAndAboveGround then
        e.isDynamicAndAboveGround && hasRegisteredBodyAfterCheck reg e.id
      else false) = true)
      ↔ (e.isDynamicAndAboveGround = true ∧ reg e.id = some true) := by
  by_cases h : e.isDynamicAndAboveGround = true
  · rw [if_pos h, h, Bool.true_and]
    unfold hasRegisteredBodyAfterCheck
    cases hreg : reg e.id with
    | none => simp
    | some b => cases b <;> simp
  · rw [if_neg h]
    simp [h]

lemma overlapImpulseFilter_iff (reg : ℕ → Option Bool) (e : PEntity) :
    ((if e.isDynamicAndAboveGround = false then false
      else hasRegisteredBodyAfterCheck reg e.id) = true)
      ↔ (e.isDynamicAndAboveGround = true ∧ reg e.id = some true) := by
  by_cases h : e.isDynamicAndAboveGround = false
  · rw [if_pos h]
    simp [h]
  · rw [if_neg h]
    rw [Bool.not_eq_false] at h
    unfold hasRegisteredBodyAfterCheck
    cases hreg : reg e.id with
    | none => simp [h]
    | some b => cases b <;> simp [h]

/-- C7: a periodic-impulse routine emits an apply-impulse event for an
entity id exactly when the physics system is present and some queried
entity with that id passes the dynamic test and had its check-entity
callback invoked with true in the same invocation; an entity whose
callback was not invoked, or was invoked with false, never receives an
impulse. -/
theorem periodicImpulse_only_checked_entities :
    (∀ (ps : Bool) (reg : ℕ → Option Bool) (w : List PEntity) (i : ℕ),
      i ∈ PhysicsCollisionLevel.applyPeriodicImpulse ps reg w ↔
        ps = true ∧ ∃ e, e ∈ w ∧ e.id = i ∧ e.isDynamicAndAboveGround = true ∧
          reg e.id = some true) ∧
    (∀ (ps : Bool) (reg : ℕ → Option Bool) (w : List PEntity) (i : ℕ),
      i ∈ PhysicsOverlapLevel.applyPeriodicImpulse ps reg w ↔
        ps = true ∧ ∃ e, e ∈ w ∧ e.id = i ∧ e.mesh = true ∧
          e.isDynamicAndAboveGround = true ∧ reg e.id = some true) := by
  constructor
  · intro ps reg w i
    unfold PhysicsCollisionLevel.applyPeriodicImpulse
    cases ps with
    | false => simp
    | true =>
        rw [if_neg (by simp), mem_doubleFilter_map]
        constructor
        · rintro ⟨e, hw, hid, hp, hq⟩
          obtain ⟨hdyn, hreg⟩ := (collisionImpulseFilter_iff reg e).mp hq
          exact ⟨rfl, e, hw, hid, hdyn, hreg⟩
        · rintro ⟨-, e, hw, hid, hdyn, hreg⟩
          obtain ⟨ht, hrb⟩ := e.isDynamicAndAboveGround_components hdyn
          exact ⟨e, hw, hid, by simp [ht, hrb],
            (collisionImpulseFilter_iff reg e).mpr ⟨hdyn, hreg⟩⟩
  · intro ps reg w i
    unfold PhysicsOverlapLevel.applyPeriodicImpulse
    cases ps with
    | false => simp
    | true =>
        rw [if_neg (by simp), mem_doubleFilter_map]
        constructor
        · rintro ⟨e, hw, hid, hp, hq⟩
          obtain ⟨hdyn, hreg⟩ := (overlapImpulseFilter_iff reg e).mp hq
          have hm : e.mesh = true := by
            simp only [Bool.and_eq_true] at hp
            exact hp.2
          exact ⟨rfl, e, hw, hid, hm, hdyn, hreg⟩
        · rintro ⟨-, e, hw, hid, hm, hdyn, hreg⟩
          obtain ⟨ht, hrb⟩ := e.isDynamicAndAboveGround_components hdyn
          exact ⟨e, hw, hid, by simp [ht, hrb, hm],
            (overlapImpulseFilter_iff reg e).mpr ⟨hdyn, hreg⟩⟩

/-! ## Menu item prefab construction (src/unnamed createMenuItemPrefab)
and MenuItemComponent (src/unnamed MenuItemComponent)

The configuration interface declares text and callback as required
fields and every other field as optional; the construction function is
pure and fills stated defaults for omitted optional fields.  Callbacks
are opaque and identified by id; colors are hex values. -/

/-- MenuItemPrefabConfig: text and callback are required (no question
mark in the interface); the rest are optional. -/
structure MenuItemPrefabConfig where
  text : String
  callback : ℕ
  position : Option Vec3
  rotation : Option Vec3
  scale : Option Vec3
  width : Option ℚ
  height : Option ℚ
  hoverColor : Option ℕ
  normalColor : Option ℕ
  fontSize : Option ℚ
  fontFamily : Option String
  textColor : Option String
deriving DecidableEq, Repr

/-- The field names of MenuItemPrefabConfig, in declaration order. -/
def menuItemPrefabConfigFields : List String :=
  ["text", "callback", "position", "rotation", "scale", "width", "height",
   "hoverColor", "normalColor", "fontSize", "fontFamily", "textColor"]

/-- The fields of MenuItemPrefabConfig marked optional (with a question
mark) in the source interface. -/
def menuItemPrefabConfigOptionalFields : List String :=
  ["position", "rotation", "scale", "width", "height",
   "hoverColor", "normalColor", "fontSize", "fontFamily", "textColor"]

/-- Whether a MenuItemPrefabConfig field is optional in the source. -/
def menuItemPrefabConfigFieldIsOptional (f : String) : Bool :=
  f ∈ menuItemPrefabConfigOptionalFields

/-- Transform data block of the produced prefab. -/
structure TransformData where
  position : Vec3
  rotation : Vec3
  scale : Vec3
deriving DecidableEq, Repr

/-- UI data block of the produced prefab. -/
structure UIData where
  layer : ℕ
  isInteractive : Bool
  billboarded : Bool
deriving DecidableEq, Repr

/-- Mesh data block of the produced prefab: plane geometry sized by the
menu item width and height, and the background color. -/
structure MeshData where
  geometryType : String
  geometryArgs : List ℚ
  color : ℕ
deriving DecidableEq, Repr

/-- Text data block of the produced prefab. -/
structure TextData where
  text : String
  fontSize : ℚ
  fontFamily : String
  color : String
deriving DecidableEq, Repr

/-- Menu-item data block of the produced prefab: colors are forwarded
as given (possibly absent). -/
structure MenuItemData where
  text : String
  callback : ℕ
  width : ℚ
  height : ℚ
  normalColor : Option ℕ
  hoverColor : Option ℕ
deriving DecidableEq, Repr

/-- The prefab template returned by createMenuItemPrefab. -/
structure MenuItemPrefab where
  name : String
  transform : TransformData
  ui : UIData
  mesh : MeshData
  textData : TextData
  menuItem : MenuItemData
deriving DecidableEq, Repr

/-- createMenuItemPrefab: pure construction of the menu item template;
omitted optional fields take their stated defaults (position origin,
rotation zero, scale one, width 4, height 0.8, font size 64, font
family Arial, background color 0x1a1a2e, text color white). -/
def createMenuItemPrefab (config : MenuItemPrefabConfig) : MenuItemPrefab :=
  { name := "MenuItem_" ++ config.text
    transform :=
      { position := config.position.getD ⟨0, 0, 0⟩
        rotation := config.rotation.getD ⟨0, 0, 0⟩
        scale := config.scale.getD ⟨1, 1, 1⟩ }
    ui := { layer := 10, isInteractive := true, billboarded := true }
    mesh :=
      { geometryType := "PlaneGeometry"
        geometryArgs := [config.width.getD 4, config.height.getD (4/5)]
        color := config.normalColor.getD 0x1a1a2e }
    textData :=
      { text := config.text
        fontSize := config.fontSize.getD 64
        fontFamily := config.fontFamily.getD "Arial"
        color := config.textColor.getD "#ffffff" }
    menuItem :=
      { text := config.text
        callback := config.callback
        width := config.width.getD 4
        height := config.height.getD (4/5)
        normalColor := config.normalColor
        hoverColor := config.hoverColor } }

/-- C8 counterexample: not all configuration fields of
createMenuItemPrefab are optional — the text field (like callback) is
required in the source interface. -/
theorem menuItemPrefab_text_not_optional :
    menuItemPrefabConfigFieldIsOptional "text" = false ∧
      "text" ∈ menuItemPrefabConfigFields := by
  decide

/-- C8 (amended): in createMenuItemPrefab every configuration field
except the required text and callback is optional, and each omitted
optional field takes its stated default — width 4 units, font size 64
pixels, height 0.8, position the origin — while a supplied value is
used as given (Option.getD covers both cases at once). -/
theorem menuItemPrefab_defaults (config : MenuItemPrefabConfig) :
    (createMenuItemPrefab config).name = "MenuItem_" ++ config.text ∧
    (createMenuItemPrefab config).transform.position = config.position.getD ⟨0, 0, 0⟩ ∧
    (createMenuItemPrefab config).menuItem.width = config.width.getD 4 ∧
    (createMenuItemPrefab config).menuItem.height = config.height.getD (4/5) ∧
    (createMenuItemPrefab config).textData.fontSize = config.fontSize.getD 64 ∧
    (createMenuItemPrefab config).mesh.geometryArgs
      = [config.width.getD 4, config.height.getD (4/5)] ∧
    (createMenuItemPrefab config).menuItem.text = config.text ∧
    (createMenuItemPrefab config).menuItem.callback = config.callback ∧
    (∀ f, menuItemPrefabConfigFieldIsOptional f = true ↔
      (f ∈ menuItemPrefabConfigFields ∧ f ∉ ["text", "callback"])) := by
  refine ⟨rfl, rfl, rfl, rfl, rfl, rfl, rfl, rfl, ?_⟩
  intro f
  unfold menuItemPrefabConfigFieldIsOptional menuItemPrefabConfigFields
    menuItemPrefabConfigOptionalFields
  constructor
  · intro h
    simp only [decide_eq_true_eq] at h
    fin_cases h <;> simp
  · rintro ⟨hmem, hnot⟩
    fin_cases hmem <;> simp_all

/-- MenuItemConfig for the MenuItemComponent constructor: the UIConfig
part (layer, isInteractive, billboarded) plus menu-item fields; the
constructor ignores any supplied isInteractive value. -/
structure MenuItemConfig where
  layer : Option ℕ
  isInteractive : Option Bool
  billboarded : Option Bool
  text : String
  callback : ℕ
  hoverColor : Option ℕ
  normalColor : Option ℕ
  width : Option ℚ
  height : Option ℚ
deriving DecidableEq, Repr

/-- MenuItemComponent state: the UIComponent part plus the readonly
menu-item fields and the private hover flag. -/
structure MenuItemComponent where
  layer : ℕ
  isInteractive : Bool
  billboarded : Bool
  text : String
  callback : ℕ
  hoverColor : ℕ
  normalColor : ℕ
  width : ℚ
  height : ℚ
  hovered : Bool
deriving DecidableEq, Repr

/-- The MenuItemComponent constructor: layer defaults to 10,
isInteractive is always true, billboarded defaults to true; the
remaining fields take the supplied value or their stated default
(hover color 0x4444ff, normal color 0x1a1a2e, width 4, height 0.8);
the hover flag starts false. -/
def MenuItemComponent.create (config : MenuItemConfig) : MenuItemComponent :=
  { layer := config.layer.getD 10
    isInteractive := true
    billboarded := config.billboarded.getD true
    text := config.text
    callback := config.callback
    hoverColor := config.hoverColor.getD 0x4444ff
    normalColor := config.normalColor.getD 0x1a1a2e
    width := config.width.getD 4
    height := config.height.getD (4/5)
    hovered := false }

/-- The isHovered setter — the only mutating member of the class: it
updates the private hover flag and nothing else. -/
def MenuItemComponent.setHovered (c : MenuItemComponent) (v : Bool) : MenuItemComponent :=
  { c with hovered := v }

/-- MenuItemComponent.click: invokes the stored callback (returned as
its id) and leaves the component unchanged. -/
def MenuItemComponent.click (c : MenuItemComponent) : ℕ × MenuItemComponent :=
  (c.callback, c)

/-- C10: every constructed MenuItemComponent has isInteractive true
regardless of the supplied configuration, layer defaulting to 10 and
billboarded defaulting to true; and the text, callback, color, width
and height fields set at construction are preserved by the only
mutating operations (the hover setter and click). -/
theorem menuItemComponent_always_interactive (config : MenuItemConfig) (v : Bool) :
    (MenuItemComponent.create config).isInteractive = true ∧
    (MenuItemComponent.create config).layer = config.layer.getD 10 ∧
    (MenuItemComponent.create config).billboarded = config.billboarded.getD true ∧
    ((MenuItemComponent.create config).setHovered v).isInteractive = true ∧
    ((MenuItemComponent.create config).setHovered v).text = config.text ∧
    ((MenuItemComponent.create config).setHovered v).callback = config.callback ∧
    ((MenuItemComponent.create config).setHovered v).hoverColor
      = (MenuItemComponent.create config).hoverColor ∧
    ((MenuItemComponent.create config).setHovered v).normalColor
      = (MenuItemComponent.create config).normalColor ∧
    ((MenuItemComponent.create config).setHovered v).width
      = (MenuItemComponent.create config).width ∧
    ((MenuItemComponent.create config).setHovered v).height
      = (MenuItemComponent.create config).height ∧
    ((MenuItemComponent.create config).click).2 = MenuItemComponent.create config := by
  refine ⟨rfl, rfl, rfl, rfl, rfl, rfl, rfl, rfl, rfl, rfl, rfl⟩

/-! ## AiBot character prefab factory (src/src/prefabs/BackButtonPrefab.ts,
createAiBotPrefab)

The factory embeds the wall-clock timestamp (Date.now(), a natural
number of milliseconds, here an explicit parameter) into the template
name via decimal rendering.  A verified decimal decoder shows the
rendering is injective, so distinct call-time timestamps give distinct
registry-key names. -/

/-- Decimal rendering of a natural number, as the template literal
interpolation of the timestamp does. -/
def natToDecimalString (n : ℕ) : String :=
  if n = 0 then "0" else String.mk ((Nat.digits 10 n).reverse.map Nat.digitChar)

/-- Decimal decoder: folds the character codes back into a number. -/
def decimalDecode (s : String) : ℕ :=
  s.data.foldl (fun a c => a * 10 + (c.toNat - 48)) 0

lemma digitChar_decode (d : ℕ) (hd : d < 10) : (Nat.digitChar d).toNat - 48 = d := by
  interval_cases d <;> rfl

lemma foldl_decimal_digitChar (l : List ℕ) (h : ∀ d ∈ l, d < 10) (a : ℕ) :
    l.foldl (fun a d => a * 10 + ((Nat.digitChar d).toNat - 48)) a
      = l.foldl (fun a d => a * 10 + d) a := by
  induction l generalizing a with
  | nil => rfl
  | cons d tl ih =>
      simp only [List.foldl_cons]
      rw [digitChar_decode d (h d (List.mem_cons_self d tl)),
        ih (fun x hx => h x (List.mem_cons_of_mem d hx))]

lemma foldr_decimal_ofDigits (l : List ℕ) :
    l.foldr (fun d a => a * 10 + d) 0 = Nat.ofDigits 10 l := by
  induction l with
  | nil => simp [Nat.ofDigits]
  | cons d tl ih =>
      simp only [List.foldr_cons, ih, Nat.ofDigits_cons]
      ring

lemma decimalDecode_natToDecimalString (n : ℕ) :
    decimalDecode (natToDecimalString n) = n := by
  unfold natToDecimalString
  by_cases h : n = 0
  · subst h
    decide
  · rw [if_neg h]
    unfold decimalDecode
    show (((Nat.digits 10 n).reverse.map Nat.digitChar).foldl
        (fun a c => a * 10 + (c.toNat - 48)) 0) = n
    rw [List.foldl_map, foldl_decimal_digitChar _
        (fun d hd => Nat.digits_lt_base (by norm_num) (List.mem_reverse.mp hd)),
      List.foldl_reverse, foldr_decimal_ofDigits, Nat.ofDigits_digits]

lemma natToDecimalString_injective : Function.Injective natToDecimalString :=
  Function.LeftInverse.injective decimalDecode_natToDecimalString

lemma string_append_left_cancel (a s1 s2 : String) (h : a ++ s1 = a ++ s2) : s1 = s2 := by
  apply String.ext
  have hd := congrArg String.data h
  simp only [String.data_append] at hd
  exact List.append_cancel_left hd

/-- Options accepted by createAiBotPrefab; all fields optional. -/
structure AiBotOptions where
  position : Option Vec3
  rotation : Option Vec3
  scale : Option Vec3
  initialAnimation : Option String
deriving DecidableEq, Repr

/-- The AiBot template produced by the factory. -/
structure AiBotPrefab where
  name : String
  position : Vec3
  rotation : Vec3
  scale : Vec3
  modelUrl : String
  autoPlayState : String
deriving DecidableEq, Repr

/-- createAiBotPrefab: embeds the call-time wall-clock timestamp (the
Date.now() value, given as the now parameter) into the template name,
and fills defaults for omitted options. -/
def createAiBotPrefab (now : ℕ) (options : AiBotOptions) : AiBotPrefab :=
  { name := "AiBot_" ++ natToDecimalString now
    position := options.position.getD ⟨0, 0, 0⟩
    rotation := options.rotation.getD ⟨0, 0, 0⟩
    scale := options.scale.getD ⟨1, 1, 1⟩
    modelUrl := "/assets/models/aiobot/aibot_idle.glb"
    autoPlayState := options.initialAnimation.getD "idle" }

/-- C9: the character-template factory embeds the call-time wall-clock
timestamp into the generated prefab name — the name is AiBot_ followed
by the decimal timestamp — and calls made at distinct timestamps
produce distinct registry-key names, so the name is not stable across
invocations. -/
theorem aiBotPrefab_name_embeds_timestamp :
    (∀ (now : ℕ) (options : AiBotOptions),
      (createAiBotPrefab now options).name = "AiBot_" ++ natToDecimalString now) ∧
    (∀ (n1 n2 : ℕ) (o1 o2 : AiBotOptions), n1 ≠ n2 →
      (createAiBotPrefab n1 o1).name ≠ (createAiBotPrefab n2 o2).name) := by
  constructor
  · intro now options
    rfl
  · intro n1 n2 o1 o2 hne heq
    exact hne (natToDecimalString_injective
      (string_append_left_cancel "AiBot_" _ _ heq))

/-- Witness for C9: two calls at timestamps 0 and 1 produce different
names. -/
theorem aiBotPrefab_name_embeds_timestamp_witness :
    (createAiBotPrefab 0 ⟨none, none, none, none⟩).name
      ≠ (createAiBotPrefab 1 ⟨none, none, none, none⟩).name :=
  aiBotPrefab_name_embeds_timestamp.2 0 1 ⟨none, none, none, none⟩
    ⟨none, none, none, none⟩ (by decide)
